import Mathlib

/-!
Verification development for the llmbench streaming-benchmark engine.

The definitions below are a shallow embedding of `runllmbench.py` and
`savellmbench.py`. Pure helpers from the Python standard library that the
source calls (`json.loads`, `str.strip`, `str.split`, `str.startswith`)
are modelled explicitly; timestamps are rationals, token counts integers.
-/

/-- Model of the values produced by the `json` module: null, booleans,
integer numerals, strings, arrays and objects. Fractional and exponent
number forms are not modelled; the streams treated here only carry
integer counts. -/
inductive Json where
  | null : Json
  | bool : Bool → Json
  | num : Int → Json
  | str : String → Json
  | arr : List Json → Json
  | obj : List (String × Json) → Json

/-- JSON insignificant whitespace characters. -/
def jsonWs (c : Char) : Bool :=
  c = ' ' ∨ c = '\t' ∨ c = '\n' ∨ c = '\r'

/-- Drop leading JSON whitespace. -/
def skipWs : List Char → List Char
  | [] => []
  | c :: cs => if jsonWs c then skipWs cs else c :: cs

/-- Parse the body of a JSON string literal after the opening quote,
accumulating decoded characters. Supports the escapes used by the
payloads under consideration; returns `none` on a malformed literal. -/
def parseStringBody (fuel : Nat) (cs : List Char) (acc : List Char) :
    Option (String × List Char) :=
  match fuel, cs with
  | 0, _ => none
  | _, [] => none
  | fuel + 1, c :: cs =>
    if c = '"' then some (String.mk acc.reverse, cs)
    else if c = '\\' then
      match cs with
      | [] => none
      | e :: cs2 =>
        let ec : Option Char :=
          if e = '"' then some '"'
          else if e = '\\' then some '\\'
          else if e = '/' then some '/'
          else if e = 'n' then some '\n'
          else if e = 't' then some '\t'
          else if e = 'r' then some '\r'
          else none
        match ec with
        | some d => parseStringBody fuel cs2 (d :: acc)
        | none => none
    else parseStringBody fuel cs (c :: acc)

/-- Parse a run of decimal digits into a natural number; fails when no
digit is present. -/
def parseNat (cs : List Char) : Option (Nat × List Char) :=
  let ds := cs.takeWhile (fun c => c.isDigit)
  if ds.isEmpty then none
  else some (ds.foldl (fun a c => a * 10 + (c.toNat - 48)) 0, cs.drop ds.length)

mutual

/-- Parse one JSON value. Fuel bounds the recursion depth; callers pass
the input length, which suffices since every recursive call consumes at
least one character. -/
def parseValue (fuel : Nat) (cs : List Char) : Option (Json × List Char) :=
  match fuel with
  | 0 => none
  | fuel + 1 =>
    match skipWs cs with
    | [] => none
    | '{' :: rest =>
      match skipWs rest with
      | '}' :: rest2 => some (.obj [], rest2)
      | rest2 => (parseMembers fuel rest2 []).map fun p => (.obj p.1, p.2)
    | '[' :: rest =>
      match skipWs rest with
      | ']' :: rest2 => some (.arr [], rest2)
      | rest2 => (parseElements fuel rest2 []).map fun p => (.arr p.1, p.2)
    | '"' :: rest =>
      (parseStringBody (rest.length + 1) rest []).map fun p => (.str p.1, p.2)
    | '-' :: rest => (parseNat rest).map fun p => (.num (-(p.1 : Int)), p.2)
    | 't' :: 'r' :: 'u' :: 'e' :: rest => some (.bool true, rest)
    | 'f' :: 'a' :: 'l' :: 's' :: 'e' :: rest => some (.bool false, rest)
    | 'n' :: 'u' :: 'l' :: 'l' :: rest => some (.null, rest)
    | c :: rest =>
      if c.isDigit then (parseNat (c :: rest)).map fun p => (.num (p.1 : Int), p.2)
      else none

/-- Parse the members of a JSON object after the opening brace, given at
least one member is present. -/
def parseMembers (fuel : Nat) (cs : List Char) (acc : List (String × Json)) :
    Option (List (String × Json) × List Char) :=
  match fuel with
  | 0 => none
  | fuel + 1 =>
    match skipWs cs with
    | '"' :: rest =>
      match parseStringBody (rest.length + 1) rest [] with
      | none => none
      | some (k, rest2) =>
        match skipWs rest2 with
        | ':' :: rest3 =>
          match parseValue fuel rest3 with
          | none => none
          | some (v, rest4) =>
            match skipWs rest4 with
            | ',' :: rest5 => parseMembers fuel rest5 (acc ++ [(k, v)])
            | '}' :: rest5 => some (acc ++ [(k, v)], rest5)
            | _ => none
        | _ => none
    | _ => none

/-- Parse the elements of a JSON array after the opening bracket, given
at least one element is present. -/
def parseElements (fuel : Nat) (cs : List Char) (acc : List Json) :
    Option (List Json × List Char) :=
  match fuel with
  | 0 => none
  | fuel + 1 =>
    match parseValue fuel cs with
    | none => none
    | some (v, rest) =>
      match skipWs rest with
      | ',' :: rest2 => parseElements fuel rest2 (acc ++ [v])
      | ']' :: rest2 => some (acc ++ [v], rest2)
      | _ => none

end

/-- Model of `json.loads`: parse a complete JSON document, requiring the
whole input to be consumed; `none` corresponds to `json.JSONDecodeError`. -/
def jsonLoads (s : String) : Option Json :=
  match parseValue (s.data.length + 1) s.data with
  | some (v, rest) => if (skipWs rest).isEmpty then some v else none
  | none => none

/-- Model of `dict.get(k)` on a decoded JSON object given as its key-value
list. Python dict construction keeps the last binding of a duplicated key,
hence the reversed search. -/
def lookupKey (kvs : List (String × Json)) (k : String) : Option Json :=
  (kvs.reverse.find? (fun kv => kv.1 == k)).map Prod.snd

/-- Python truthiness of a decoded JSON value. -/
def Json.truthy : Json → Bool
  | .null => false
  | .bool b => b
  | .num n => n ≠ 0
  | .str s => s ≠ ""
  | .arr xs => ¬ xs.isEmpty
  | .obj kvs => ¬ kvs.isEmpty

/-- Python whitespace characters recognised by `str.strip` and
`str.split`. -/
def pySpace (c : Char) : Bool :=
  c = ' ' ∨ c = '\t' ∨ c = '\n' ∨ c = '\r' ∨ c = '\x0b' ∨ c = '\x0c'

/-- Model of `str.strip()`. -/
def pyStrip (s : String) : String :=
  String.mk (((s.data.dropWhile pySpace).reverse.dropWhile pySpace).reverse)

/-- Count the maximal nonempty whitespace-separated runs of a character
list; the Boolean flag records whether the previous character was inside
a word. -/
def countWordsAux : List Char → Bool → Nat
  | [], _ => 0
  | c :: cs, inWord =>
    if pySpace c then countWordsAux cs false
    else (if inWord then 0 else 1) + countWordsAux cs true

/-- Model of `len(s.split())`: the number of whitespace-separated words. -/
def wordCount (s : String) : Nat :=
  countWordsAux s.data false

/-- Model of `int(len(s.split()) * 1.3)`, the token estimate used
throughout the source. The double nearest to 1.3 exceeds 13/10 by about
4.4e-17, so for every word count arising here the float truncation agrees
with the exact floor of 13n/10, which is what this definition computes. -/
def estimateTokens (s : String) : Int :=
  ((13 * wordCount s) / 10 : Nat)

/-- Model of `str.startswith(p)`. -/
def pyStartsWith (s p : String) : Bool :=
  s.data.take p.data.length == p.data

/-- Model of `s[n:]` character slicing. -/
def strDrop (s : String) (n : Nat) : String :=
  String.mk (s.data.drop n)

/-- Modelled Python exception classes raised along the paths considered:
`ValueError` (unsupported service, body decode failure), `TypeError`,
`NameError` (read of a never-assigned local), `AttributeError`, and
`requests.exceptions.RequestException` (transport or HTTP status
failure). -/
inductive PyError where
  | valueError
  | typeError
  | nameError
  | attributeError
  | requestException
deriving DecidableEq

/-- Read a decoded JSON value as the string it must be for Python string
concatenation; any other shape raises `TypeError` in the source. -/
def Json.asStr : Json → Except PyError String
  | .str s => .ok s
  | _ => .error .typeError

/-- Read a decoded JSON value as the integer token count the source
arithmetic needs; non-integer payload values are modelled as an
immediate type error, matching the eventual failure of the source
arithmetic on them. -/
def Json.asInt : Json → Except PyError Int
  | .num n => .ok n
  | _ => .error .typeError

/-- The `LiveMetrics` dataclass of savellmbench.py: mutable live state of
one prompt run, with the same fields and defaults. -/
structure LiveMetrics where
  start_time : ℚ
  first_token_time : Option ℚ := none
  current_time : ℚ := 0
  total_tokens : ℤ := 0
  response_text : String := ""
  prompt_name : String := ""
  service_name : String := ""
  model_name : String := ""
deriving DecidableEq

/-- The `total_elapsed` property: elapsed time since start, clamped at 0. -/
def LiveMetrics.total_elapsed (m : LiveMetrics) : ℚ :=
  if m.start_time < m.current_time then m.current_time - m.start_time else 0

/-- The `prompt_delay_time` property. The source guards with Python
truthiness of `first_token_time`, so both `None` and a 0.0 timestamp
give 0. -/
def LiveMetrics.prompt_delay_time (m : LiveMetrics) : ℚ :=
  match m.first_token_time with
  | some t => if t = 0 then 0 else t - m.start_time
  | none => 0

/-- The `generation_time` property: time from first token to the current
instant, 0 unless `first_token_time` is truthy and strictly in the past. -/
def LiveMetrics.generation_time (m : LiveMetrics) : ℚ :=
  match m.first_token_time with
  | some t => if t ≠ 0 ∧ t < m.current_time then m.current_time - t else 0
  | none => 0

/-- The `tokens_per_second` property of savellmbench.py, with its double
guard on positive generation time and positive token count. -/
def LiveMetrics.tokens_per_second (m : LiveMetrics) : ℚ :=
  if 0 < m.generation_time ∧ 0 < m.total_tokens then
    (m.total_tokens : ℚ) / m.generation_time
  else 0

/-- The `request_tokens_per_second` property of savellmbench.py. -/
def LiveMetrics.request_tokens_per_second (m : LiveMetrics) : ℚ :=
  if 0 < m.total_elapsed ∧ 0 < m.total_tokens then
    (m.total_tokens : ℚ) / m.total_elapsed
  else 0

/-- `LiveBenchmarkDisplay.update_first_token`: store the current instant
as `first_token_time`; the source assigns unconditionally whenever a
current metrics object exists. -/
def update_first_token (m : LiveMetrics) (now : ℚ) : LiveMetrics :=
  { m with first_token_time := some now }

/-- `LiveBenchmarkDisplay.update_response`: append the delta to the
response text, stamp the current time, and take the supplied token count
when one is given, else re-estimate from the accumulated text. -/
def update_response (m : LiveMetrics) (additional_text : String)
    (token_count : Option ℤ) (now : ℚ) : LiveMetrics :=
  let text := m.response_text ++ additional_text
  { m with
    response_text := text
    current_time := now
    total_tokens :=
      match token_count with
      | some n => n
      | none => estimateTokens text }

/-- `LiveBenchmarkDisplay.complete_prompt_benchmark`: replace the
response text and token count wholesale and stamp the completion time. -/
def complete_prompt_benchmark (m : LiveMetrics) (final_response : String)
    (final_token_count : ℤ) (now : ℚ) : LiveMetrics :=
  { m with
    response_text := final_response
    total_tokens := final_token_count
    current_time := now }

/-- The service descriptor dictionary consumed by the runner; optional
fields model `dict.get` with a default in the source. -/
structure ServiceInfo where
  name : String
  host : String
  selected_model : Option String
  auth_headers : Option (List (String × String))
deriving DecidableEq

/-- The runner field `selected_model`, defaulted to the string default. -/
def ServiceInfo.model (s : ServiceInfo) : String :=
  s.selected_model.getD "default"

/-- The headers attached to every request:
`service_info.get(auth_headers, default content-type header)`. -/
def ServiceInfo.headers (s : ServiceInfo) : List (String × String) :=
  s.auth_headers.getD [("Content-Type", "application/json")]

/-- `LiveBenchmarkDisplay.start_prompt_benchmark`: a fresh `LiveMetrics`
for the prompt, carrying the dataclass defaults for every unset field. -/
def start_prompt_benchmark (svc : ServiceInfo) (promptName : String)
    (now : ℚ) : LiveMetrics :=
  { start_time := now
    prompt_name := promptName
    service_name := svc.name
    model_name := svc.model }

/-- The `BenchmarkMetrics` dataclass of runllmbench.py. -/
structure BenchmarkMetrics where
  total_time : ℚ
  prompt_delay_time : ℚ
  generation_time : ℚ
  total_tokens : ℤ
  tokens_per_second : ℚ
  request_tokens_per_second : ℚ
  prompt_name : String
  service_name : String
deriving DecidableEq

/-- The metric derivation shared verbatim by the streaming path and the
fallback path of runllmbench.py: differences of the three recorded
instants, with each throughput guarded against a nonpositive
denominator. -/
def computeMetrics (startTime fttTime endTime : ℚ) (tokens : ℤ)
    (promptName serviceName : String) : BenchmarkMetrics :=
  let total_time := endTime - startTime
  let prompt_delay_time := fttTime - startTime
  let generation_time := endTime - fttTime
  { total_time := total_time
    prompt_delay_time := prompt_delay_time
    generation_time := generation_time
    total_tokens := tokens
    tokens_per_second :=
      if 0 < generation_time then (tokens : ℚ) / generation_time else 0
    request_tokens_per_second :=
      if 0 < total_time then (tokens : ℚ) / total_time else 0
    prompt_name := promptName
    service_name := serviceName }

/-- `LLMBenchmarkRunner.get_api_endpoint_and_payload`: the per-variant
endpoint and request body; an unknown service name raises `ValueError`
before any request exists. -/
def get_api_endpoint_and_payload (svc : ServiceInfo) (prompt : String)
    (streaming : Bool) : Except PyError (String × Json) :=
  if svc.name = "Ollama" then
    .ok (svc.host ++ "/api/generate",
      .obj [("model", .str svc.model), ("prompt", .str prompt),
            ("stream", .bool streaming)])
  else if svc.name = "vLLM" then
    .ok (svc.host ++ "/v1/completions",
      .obj [("model", .str svc.model), ("prompt", .str prompt),
            ("max_tokens", .num 500), ("stream", .bool streaming)])
  else if svc.name = "Llama.cpp" then
    .ok (svc.host ++ "/completion",
      .obj [("prompt", .str prompt), ("n_predict", .num 500),
            ("stream", .bool streaming)])
  else .error .valueError

/-- An HTTP request as issued by `requests.post` in the source: resolved
endpoint, JSON body, header set, and the streaming keyword flag. -/
structure Request where
  endpoint : String
  payload : Json
  headers : List (String × String)
  stream : Bool

/-- The local state of the streaming loop in
`LLMBenchmarkRunner.make_streaming_request`: the engine locals
`first_token_time`, `accumulated_response`, `estimated_tokens` (`none`
models a Python local that was never assigned) and `total_tokens`,
together with the `LiveMetrics` object the display mutates. -/
structure StreamState where
  firstTokenTime : Option ℚ
  accumulated : String
  estimatedTokens : Option ℤ
  totalTokens : ℤ
  display : LiveMetrics

/-- The loop state at entry: nothing received yet, display freshly
started for this prompt. -/
def initStreamState (disp : LiveMetrics) : StreamState :=
  { firstTokenTime := none
    accumulated := ""
    estimatedTokens := none
    totalTokens := 0
    display := disp }

/-- The first-token marking of the engine: when its local
`first_token_time` is still unset, record the current instant and notify
the display; otherwise do nothing. -/
def markFirstToken (st : StreamState) (now : ℚ) : StreamState :=
  match st.firstTokenTime with
  | none =>
    { st with
      firstTokenTime := some now
      display := update_first_token st.display now }
  | some _ => st

/-- The delta handling of the engine: always extend the accumulated
response; when the chunk is nonempty, recompute the running estimate and
push it to the display. -/
def appendChunk (st : StreamState) (chunk : String) (now : ℚ) : StreamState :=
  let acc := st.accumulated ++ chunk
  if chunk = "" then { st with accumulated := acc }
  else
    let est := estimateTokens acc
    { st with
      accumulated := acc
      estimatedTokens := some est
      display := update_response st.display chunk (some est) now }

/-- The Ollama branch of the streaming loop body: decode the line, mark
the first token on any decoded line, append the `response` fragment, and
on a truthy `done` flag read `eval_count` (the default argument
`estimated_tokens` is evaluated first, so an unbound local raises
`NameError` even when the key is present) and break. -/
def ollamaBody (st : StreamState) (line : String) (now : ℚ) :
    Except PyError (StreamState × Bool) :=
  match jsonLoads line with
  | none => .ok (st, false)
  | some (.obj kvs) =>
    let st1 := markFirstToken st now
    match ((lookupKey kvs "response").getD (.str "")).asStr with
    | .error e => .error e
    | .ok chunk =>
      let st2 := appendChunk st1 chunk now
      if ((lookupKey kvs "done").getD (.bool false)).truthy then
        match st2.estimatedTokens with
        | none => .error .nameError
        | some est =>
          match lookupKey kvs "eval_count" with
          | some v => (v.asInt).map fun n => ({ st2 with totalTokens := n }, true)
          | none => .ok ({ st2 with totalTokens := est }, true)
      else .ok (st2, false)
  | some _ => .error .attributeError

/-- The Llama.cpp branch of the streaming loop body: identical to the
Ollama branch up to the field names `content`, `stop` and
`tokens_predicted`. -/
def llamaCppBody (st : StreamState) (line : String) (now : ℚ) :
    Except PyError (StreamState × Bool) :=
  match jsonLoads line with
  | none => .ok (st, false)
  | some (.obj kvs) =>
    let st1 := markFirstToken st now
    match ((lookupKey kvs "content").getD (.str "")).asStr with
    | .error e => .error e
    | .ok chunk =>
      let st2 := appendChunk st1 chunk now
      if ((lookupKey kvs "stop").getD (.bool false)).truthy then
        match st2.estimatedTokens with
        | none => .error .nameError
        | some est =>
          match lookupKey kvs "tokens_predicted" with
          | some v => (v.asInt).map fun n => ({ st2 with totalTokens := n }, true)
          | none => .ok ({ st2 with totalTokens := est }, true)
      else .ok (st2, false)
  | some _ => .error .attributeError

/-- The vLLM branch of the streaming loop body: only data-prefixed lines
are considered, the bare `[DONE]` sentinel breaks the loop, and the first
token is marked only once a decoded record carries a nonempty `choices`
list. A truthy non-list `choices` value is modelled as the attribute
error its indexing eventually raises. -/
def vllmBody (st : StreamState) (line : String) (now : ℚ) :
    Except PyError (StreamState × Bool) :=
  if pyStartsWith line "data: " then
    if pyStrip (strDrop line 6) = "[DONE]" then .ok (st, true)
    else
      match jsonLoads (strDrop line 6) with
      | none => .ok (st, false)
      | some (.obj kvs) =>
        match (lookupKey kvs "choices").getD (.arr []) with
        | .arr (c0 :: _) =>
          let st1 := markFirstToken st now
          match c0 with
          | .obj ckvs =>
            match ((lookupKey ckvs "text").getD (.str "")).asStr with
            | .error e => .error e
            | .ok chunk => .ok (appendChunk st1 chunk now, false)
          | _ => .error .attributeError
        | .arr [] => .ok (st, false)
        | j => if j.truthy then .error .attributeError else .ok (st, false)
      | some _ => .error .attributeError
  else .ok (st, false)

/-- One iteration of the streaming loop of
`LLMBenchmarkRunner.make_streaming_request`: skip lines that strip to
nothing, then dispatch on the service name; a name matching no branch
leaves the line unprocessed. The Boolean result records whether the loop
breaks. -/
def streamLineStep (serviceName : String) (st : StreamState) (line : String)
    (now : ℚ) : Except PyError (StreamState × Bool) :=
  if pyStrip line = "" then .ok (st, false)
  else if serviceName = "Ollama" then ollamaBody st line now
  else if serviceName = "vLLM" then vllmBody st line now
  else if serviceName = "Llama.cpp" then llamaCppBody st line now
  else .ok (st, false)

/-- Run the streaming loop over the arriving lines, each paired with its
arrival instant, stopping at the first break and propagating any raised
exception. -/
def runLoop (step : StreamState → String → ℚ → Except PyError (StreamState × Bool)) :
    List (String × ℚ) → StreamState → Except PyError StreamState
  | [], st => .ok st
  | (l, t) :: rest, st =>
    match step st l t with
    | .error e => .error e
    | .ok (st', true) => .ok st'
    | .ok (st', false) => runLoop step rest st'

/-- The observable shape of one streaming HTTP exchange: the instant the
request was issued, whether the connection and status check succeeded,
the body lines with their arrival instants, and the completion instant. -/
structure StreamSession where
  startTime : ℚ
  connectOk : Bool
  lines : List (String × ℚ)
  endTime : ℚ

/-- The post-loop finalization of `make_streaming_request`: default the
first-token instant to the start instant, replace a zero token count by
the estimate over the accumulated text, push the final response to the
display, and derive the metrics. -/
def finalizeStreaming (startTime endTime : ℚ) (promptName serviceName : String)
    (st : StreamState) : BenchmarkMetrics × LiveMetrics :=
  let ftt := st.firstTokenTime.getD startTime
  let totalTokens :=
    if st.totalTokens = 0 then estimateTokens st.accumulated else st.totalTokens
  (computeMetrics startTime ftt endTime totalTokens promptName serviceName,
   complete_prompt_benchmark st.display st.accumulated totalTokens endTime)

/-- `LLMBenchmarkRunner.make_streaming_request`: build the request (an
unknown service raises before anything is sent), issue it, consume the
stream, and finalize. The first component lists the requests actually
issued; the second is the returned metrics paired with the final display
state, or the exception that escaped. -/
def make_streaming_request (svc : ServiceInfo) (prompt promptName : String)
    (sess : StreamSession) :
    List Request × Except PyError (BenchmarkMetrics × LiveMetrics) :=
  match get_api_endpoint_and_payload svc prompt true with
  | .error e => ([], .error e)
  | .ok (endpoint, payload) =>
    let req : Request :=
      { endpoint := endpoint, payload := payload, headers := svc.headers,
        stream := true }
    if sess.connectOk then
      let st0 := initStreamState (start_prompt_benchmark svc promptName sess.startTime)
      match runLoop (streamLineStep svc.name) sess.lines st0 with
      | .error e => ([req], .error e)
      | .ok st =>
        ([req], .ok (finalizeStreaming sess.startTime sess.endTime promptName svc.name st))
    else ([req], .error .requestException)

/-- Rendering of a decoded value for the `str(result)` fallback branch of
`extract_response_info`. That branch is unreachable for the three known
variants (the unknown name already raised during request construction),
so the exact quoting of Python repr is not load-bearing here. -/
def pyStrJson : Json → String
  | .null => "None"
  | .bool b => if b then "True" else "False"
  | .num n => toString n
  | .str s => "\x27" ++ s ++ "\x27"
  | .arr xs =>
    "[" ++ String.intercalate ", " (xs.attach.map fun x => pyStrJson x.1) ++ "]"
  | .obj kvs =>
    "\x7b" ++
      String.intercalate ", "
        (kvs.attach.map fun kv => "\x27" ++ kv.1.1 ++ "\x27: " ++ pyStrJson kv.1.2)
      ++ "\x7d"
decreasing_by
all_goals simp_wf
· have h := List.sizeOf_lt_of_mem x.2
  omega
· obtain ⟨⟨k, v⟩, hm⟩ := kv
  have h := List.sizeOf_lt_of_mem hm
  simp only [Prod.mk.sizeOf_spec] at h
  simp only []
  omega

/-- `LLMBenchmarkRunner.extract_response_info`: pull the response text
and token count out of a non-streaming response body, per service
variant, estimating the count when the service supplied none. -/
def extract_response_info (svc : ServiceInfo) (result : Json) :
    Except PyError (String × ℤ) :=
  if svc.name = "Ollama" then
    match result with
    | .obj kvs =>
      match ((lookupKey kvs "response").getD (.str "")).asStr with
      | .error e => .error e
      | .ok text =>
        match lookupKey kvs "eval_count" with
        | some v => (v.asInt).map fun n => (text, n)
        | none => .ok (text, estimateTokens text)
    | _ => .error .attributeError
  else if svc.name = "vLLM" then
    match result with
    | .obj kvs =>
      match (lookupKey kvs "choices").getD (.arr []) with
      | .arr (c0 :: _) =>
        match c0 with
        | .obj ckvs =>
          match ((lookupKey ckvs "text").getD (.str "")).asStr with
          | .error e => .error e
          | .ok text =>
            match (lookupKey kvs "usage").getD (.obj []) with
            | .obj ukvs =>
              match lookupKey ukvs "completion_tokens" with
              | some v => (v.asInt).map fun n => (text, n)
              | none => .ok (text, estimateTokens text)
            | _ => .error .attributeError
        | _ => .error .attributeError
      | .arr [] => .ok ("", 0)
      | j => if j.truthy then .error .attributeError else .ok ("", 0)
    | _ => .error .attributeError
  else if svc.name = "Llama.cpp" then
    match result with
    | .obj kvs =>
      match ((lookupKey kvs "content").getD (.str "")).asStr with
      | .error e => .error e
      | .ok text =>
        match lookupKey kvs "tokens_predicted" with
        | some v => (v.asInt).map fun n => (text, n)
        | none => .ok (text, estimateTokens text)
    | _ => .error .attributeError
  else
    let text := pyStrJson result
    .ok (text, estimateTokens text)

/-- The observable shape of one non-streaming HTTP exchange: issue
instant, connection success, arrival instant of the full response, HTTP
status success, decoded body (`none` models a body `json()` cannot
decode), and completion instant. -/
structure FallbackSession where
  startTime : ℚ
  connectOk : Bool
  responseTime : ℚ
  statusOk : Bool
  body : Option Json
  endTime : ℚ

/-- The non-streaming fallback of
`LLMBenchmarkRunner.make_api_request_with_live_display`: rebuild the
request without streaming, restart the display and the measurement, take
the response arrival as the first-token instant, then extract and derive
the metrics. The request trace again lists what was actually issued. -/
def make_fallback_request (svc : ServiceInfo) (prompt promptName : String)
    (fs : FallbackSession) :
    List Request × Except PyError (BenchmarkMetrics × LiveMetrics) :=
  match get_api_endpoint_and_payload svc prompt false with
  | .error e => ([], .error e)
  | .ok (endpoint, payload) =>
    let req : Request :=
      { endpoint := endpoint, payload := payload, headers := svc.headers,
        stream := false }
    if fs.connectOk then
      let disp1 := update_first_token
        (start_prompt_benchmark svc promptName fs.startTime) fs.responseTime
      if fs.statusOk then
        match fs.body with
        | none => ([req], .error .valueError)
        | some result =>
          match extract_response_info svc result with
          | .error e => ([req], .error e)
          | .ok (text, tokens) =>
            ([req],
             .ok (computeMetrics fs.startTime fs.responseTime fs.endTime tokens
                    promptName svc.name,
                  complete_prompt_benchmark disp1 text tokens fs.endTime))
      else ([req], .error .requestException)
    else ([req], .error .requestException)

/-- `LLMBenchmarkRunner.make_api_request_with_live_display`: try the
streaming path; on any exception from it, run the single non-streaming
fallback. The request trace concatenates what each path issued. -/
def make_api_request_with_live_display (svc : ServiceInfo)
    (prompt promptName : String) (sess : StreamSession)
    (fs : FallbackSession) :
    List Request × Except PyError (BenchmarkMetrics × LiveMetrics) :=
  match make_streaming_request svc prompt promptName sess with
  | (reqs, .ok r) => (reqs, .ok r)
  | (reqs, .error _) =>
    let fb := make_fallback_request svc prompt promptName fs
    (reqs ++ fb.1, fb.2)

/-- `LLMBenchmarkRunner.run_single_benchmark`: run one prompt and swallow
any exception into an absent result. -/
def run_single_benchmark (svc : ServiceInfo) (promptName promptText : String)
    (sess : StreamSession) (fs : FallbackSession) :
    List Request × Option (BenchmarkMetrics × LiveMetrics) :=
  match make_api_request_with_live_display svc promptText promptName sess fs with
  | (reqs, .ok r) => (reqs, some r)
  | (reqs, .error _) => (reqs, none)

def MetricsOrdered (m : BenchmarkMetrics) : Prop :=
  0 ≤ m.prompt_delay_time ∧ m.prompt_delay_time ≤ m.total_time ∧
  0 ≤ m.generation_time ∧ m.generation_time ≤ m.total_time ∧
  m.prompt_delay_time + m.generation_time = m.total_time

def svcOllama : ServiceInfo :=
  { name := "Ollama", host := "http://h", selected_model := some "m",
    auth_headers := none }

def svcUnknown : ServiceInfo :=
  { name := "Test Service", host := "http://h", selected_model := none,
    auth_headers := none }

def lineC5a : String := "\x7b\"response\":\"Hi \",\"done\":false\x7d"

def lineC5b : String := "\x7b\"response\":\"there\",\"done\":false\x7d"

def lineC5c : String := "\x7b\"response\":\"\",\"done\":true,\"eval_count\":7\x7d"

def sessC5 : StreamSession :=
  { startTime := 0, connectOk := true,
    lines := [(lineC5a, 1), (lineC5b, 2), (lineC5c, 3)], endTime := 4 }

def fsW : FallbackSession :=
  { startTime := 0, connectOk := true, responseTime := 1, statusOk := true,
    body := some (.obj [("response", .str "ok"), ("eval_count", .num 3)]),
    endTime := 2 }

def mQuietW : LiveMetrics :=
  { start_time := 0, first_token_time := none, current_time := 0,
    total_tokens := 0, response_text := "", prompt_name := "P1",
    service_name := "Ollama", model_name := "m" }

def stQuietW : StreamState := initStreamState mQuietW

def mC2 : LiveMetrics := start_prompt_benchmark svcOllama "P1" 0

def stC2W : StreamState :=
  { firstTokenTime := some 1, accumulated := "Hi ", estimatedTokens := some 1,
    totalTokens := 0,
    display :=
      { start_time := 0, first_token_time := some 1, current_time := 1,
        total_tokens := 1, response_text := "Hi ", prompt_name := "P1",
        service_name := "Ollama", model_name := "m" } }

def stC2res : StreamState :=
  { firstTokenTime := some 1, accumulated := "Hi there",
    estimatedTokens := some 2, totalTokens := 0,
    display :=
      { start_time := 0, first_token_time := some 1, current_time := 2,
        total_tokens := 2, response_text := "Hi there", prompt_name := "P1",
        service_name := "Ollama", model_name := "m" } }

def lineC3 : String := "\x7b\"response\":\"\",\"done\":false\x7d"

def stInit : StreamState :=
  initStreamState (start_prompt_benchmark svcOllama "P1" 0)

def stC3res : StreamState :=
  { firstTokenTime := some 5, accumulated := "", estimatedTokens := none,
    totalTokens := 0,
    display :=
      { start_time := 0, first_token_time := some 5, current_time := 0,
        total_tokens := 0, response_text := "", prompt_name := "P1",
        service_name := "Ollama", model_name := "m" } }

/-- Modelled from the spec: the claimed estimate
`round(wordCount(responseText) * 1.3)`, for comparison against the
truncating estimate the source computes. -/
def specRoundTokens (n : Nat) : Int :=
  round ((n : ℚ) * (13 / 10))

def lineC4 : String := "\x7b\"response\":\"a b c\",\"done\":false\x7d"

def stC4res : StreamState :=
  { firstTokenTime := some 1, accumulated := "a b c",
    estimatedTokens := some 3, totalTokens := 0,
    display :=
      { start_time := 0, first_token_time := some 1, current_time := 1,
        total_tokens := 3, response_text := "a b c", prompt_name := "P1",
        service_name := "Ollama", model_name := "m" } }

def sessFail : StreamSession :=
  { startTime := 0, connectOk := false, lines := [], endTime := 0 }

def reqOllamaW : Request :=
  { endpoint := "http://h/api/generate",
    payload := .obj [("model", .str "m"), ("prompt", .str "p"),
                     ("stream", .bool true)],
    headers := [("Content-Type", "application/json")],
    stream := true }

theorem markFirstToken_cases (st : StreamState) (now : ℚ) :
    ((markFirstToken st now).firstTokenTime = st.firstTokenTime ∧
      (markFirstToken st now).display.first_token_time = st.display.first_token_time) ∨
    (st.firstTokenTime = none ∧ (markFirstToken st now).firstTokenTime = some now) := by
  cases h : st.firstTokenTime with
  | none => exact Or.inr ⟨rfl, by simp [markFirstToken, h]⟩
  | some t => exact Or.inl ⟨by simp [markFirstToken, h], by simp [markFirstToken, h]⟩

theorem markFirstToken_set (st : StreamState) (now t : ℚ)
    (h : st.firstTokenTime = some t) :
    markFirstToken st now = st := by
  simp [markFirstToken, h]

theorem appendChunk_ftt (st : StreamState) (c : String) (now : ℚ) :
    (appendChunk st c now).firstTokenTime = st.firstTokenTime ∧
    (appendChunk st c now).display.first_token_time = st.display.first_token_time := by
  unfold appendChunk update_response
  split <;> exact ⟨rfl, rfl⟩

theorem markAppend_ftt (st : StreamState) (c : String) (now : ℚ) :
    ((appendChunk (markFirstToken st now) c now).firstTokenTime = st.firstTokenTime ∧
      (appendChunk (markFirstToken st now) c now).display.first_token_time =
        st.display.first_token_time) ∨
    (st.firstTokenTime = none ∧
      (appendChunk (markFirstToken st now) c now).firstTokenTime = some now) := by
  rcases appendChunk_ftt (markFirstToken st now) c now with ⟨h3, h4⟩
  rcases markFirstToken_cases st now with ⟨h1, h2⟩ | ⟨h1, h2⟩
  · exact Or.inl ⟨h3.trans h1, h4.trans h2⟩
  · exact Or.inr ⟨h1, h3.trans h2⟩

theorem ollamaBody_ftt (st : StreamState) (line : String) (now : ℚ)
    (st' : StreamState) (b : Bool)
    (h : ollamaBody st line now = .ok (st', b)) :
    (st'.firstTokenTime = st.firstTokenTime ∧
      st'.display.first_token_time = st.display.first_token_time) ∨
    (st.firstTokenTime = none ∧ st'.firstTokenTime = some now) := by
  unfold ollamaBody at h
  rcases hj : jsonLoads line with _ | j
  · simp only [hj] at h
    cases h
    exact Or.inl ⟨rfl, rfl⟩
  · simp only [hj] at h
    cases j with
    | obj kvs =>
      rcases ha : ((lookupKey kvs "response").getD (Json.str "")).asStr with e | chunk
      · simp [ha] at h
      · simp only [ha] at h
        split at h
        · rcases he : (appendChunk (markFirstToken st now) chunk now).estimatedTokens with _ | est
          · simp [he] at h
          · simp only [he] at h
            rcases hev : lookupKey kvs "eval_count" with _ | v
            · simp only [hev, Except.ok.injEq, Prod.mk.injEq] at h
              obtain ⟨h1, h2⟩ := h
              subst h1
              exact markAppend_ftt st chunk now
            · simp only [hev] at h
              rcases hv : v.asInt with e | n
              · simp [hv, Except.map] at h
              · simp only [hv, Except.map, Except.ok.injEq, Prod.mk.injEq] at h
                obtain ⟨h1, h2⟩ := h
                subst h1
                exact markAppend_ftt st chunk now
        · simp only [Except.ok.injEq, Prod.mk.injEq] at h
          obtain ⟨h1, h2⟩ := h
          subst h1
          exact markAppend_ftt st chunk now
    | null => simp at h
    | bool x => simp at h
    | num x => simp at h
    | str x => simp at h
    | arr x => simp at h

theorem llamaCppBody_ftt (st : StreamState) (line : String) (now : ℚ)
    (st' : StreamState) (b : Bool)
    (h : llamaCppBody st line now = .ok (st', b)) :
    (st'.firstTokenTime = st.firstTokenTime ∧
      st'.display.first_token_time = st.display.first_token_time) ∨
    (st.firstTokenTime = none ∧ st'.firstTokenTime = some now) := by
  unfold llamaCppBody at h
  rcases hj : jsonLoads line with _ | j
  · simp only [hj] at h
    cases h
    exact Or.inl ⟨rfl, rfl⟩
  · simp only [hj] at h
    cases j with
    | obj kvs =>
      rcases ha : ((lookupKey kvs "content").getD (Json.str "")).asStr with e | chunk
      · simp [ha] at h
      · simp only [ha] at h
        split at h
        · rcases he : (appendChunk (markFirstToken st now) chunk now).estimatedTokens with _ | est
          · simp [he] at h
          · simp only [he] at h
            rcases hev : lookupKey kvs "tokens_predicted" with _ | v
            · simp only [hev, Except.ok.injEq, Prod.mk.injEq] at h
              obtain ⟨h1, h2⟩ := h
              subst h1
              exact markAppend_ftt st chunk now
            · simp only [hev] at h
              rcases hv : v.asInt with e | n
              · simp [hv, Except.map] at h
              · simp only [hv, Except.map, Except.ok.injEq, Prod.mk.injEq] at h
                obtain ⟨h1, h2⟩ := h
                subst h1
                exact markAppend_ftt st chunk now
        · simp only [Except.ok.injEq, Prod.mk.injEq] at h
          obtain ⟨h1, h2⟩ := h
          subst h1
          exact markAppend_ftt st chunk now
    | null => simp at h
    | bool x => simp at h
    | num x => simp at h
    | str x => simp at h
    | arr x => simp at h

theorem vllmBody_ftt (st : StreamState) (line : String) (now : ℚ)
    (st' : StreamState) (b : Bool)
    (h : vllmBody st line now = .ok (st', b)) :
    (st'.firstTokenTime = st.firstTokenTime ∧
      st'.display.first_token_time = st.display.first_token_time) ∨
    (st.firstTokenTime = none ∧ st'.firstTokenTime = some now) := by
  unfold vllmBody at h
  split at h
  · split at h
    · cases h
      exact Or.inl ⟨rfl, rfl⟩
    · rcases hj : jsonLoads (strDrop line 6) with _ | j
      · simp only [hj] at h
        cases h
        exact Or.inl ⟨rfl, rfl⟩
      · simp only [hj] at h
        cases j with
        | obj kvs =>
          rcases hch : (lookupKey kvs "choices").getD (Json.arr []) with _ | x | x | x | xs | okvs
          · simp only [hch] at h
            split at h
            · simp at h
            · cases h; exact Or.inl ⟨rfl, rfl⟩
          · simp only [hch] at h
            split at h
            · simp at h
            · cases h; exact Or.inl ⟨rfl, rfl⟩
          · simp only [hch] at h
            split at h
            · simp at h
            · cases h; exact Or.inl ⟨rfl, rfl⟩
          · simp only [hch] at h
            split at h
            · simp at h
            · cases h; exact Or.inl ⟨rfl, rfl⟩
          · cases xs with
            | nil => simp only [hch] at h; cases h; exact Or.inl ⟨rfl, rfl⟩
            | cons c0 crest =>
              simp only [hch] at h
              cases c0 with
              | obj ckvs =>
                rcases ha : ((lookupKey ckvs "text").getD (Json.str "")).asStr with e | chunk
                · simp [ha] at h
                · simp only [ha, Except.ok.injEq, Prod.mk.injEq] at h
                  obtain ⟨h1, h2⟩ := h
                  subst h1
                  exact markAppend_ftt st chunk now
              | null => simp at h
              | bool x => simp at h
              | num x => simp at h
              | str x => simp at h
              | arr x => simp at h
          · simp only [hch] at h
            split at h
            · simp at h
            · cases h; exact Or.inl ⟨rfl, rfl⟩
        | null => simp at h
        | bool x => simp at h
        | num x => simp at h
        | str x => simp at h
        | arr x => simp at h
  · cases h
    exact Or.inl ⟨rfl, rfl⟩

theorem streamLineStep_ftt (name : String) (st : StreamState) (line : String)
    (now : ℚ) (st' : StreamState) (b : Bool)
    (h : streamLineStep name st line now = .ok (st', b)) :
    (st'.firstTokenTime = st.firstTokenTime ∧
      st'.display.first_token_time = st.display.first_token_time) ∨
    (st.firstTokenTime = none ∧ st'.firstTokenTime = some now) := by
  unfold streamLineStep at h
  split at h
  · cases h; exact Or.inl ⟨rfl, rfl⟩
  · split at h
    · exact ollamaBody_ftt _ _ _ _ _ h
    · split at h
      · exact vllmBody_ftt _ _ _ _ _ h
      · split at h
        · exact llamaCppBody_ftt _ _ _ _ _ h
        · cases h; exact Or.inl ⟨rfl, rfl⟩

theorem streamLineStep_ftt_set (name : String) (st : StreamState) (line : String)
    (now : ℚ) (st' : StreamState) (b : Bool) (t : ℚ)
    (hset : st.firstTokenTime = some t)
    (h : streamLineStep name st line now = .ok (st', b)) :
    st'.firstTokenTime = some t ∧
    st'.display.first_token_time = st.display.first_token_time := by
  rcases streamLineStep_ftt name st line now st' b h with ⟨h1, h2⟩ | ⟨h1, h2⟩
  · exact ⟨h1.trans hset, h2⟩
  · rw [hset] at h1
    exact Option.noConfusion h1

theorem runLoop_ftt_mem (name : String) (lines : List (String × ℚ)) :
    ∀ (st st' : StreamState),
    runLoop (streamLineStep name) lines st = .ok st' →
    ∀ t, st'.firstTokenTime = some t →
      st.firstTokenTime = some t ∨ ∃ p ∈ lines, p.2 = t := by
  induction lines with
  | nil =>
    intro st st' h t ht
    unfold runLoop at h
    cases h
    exact Or.inl ht
  | cons p rest ih =>
    intro st st' h t ht
    obtain ⟨l, tm⟩ := p
    unfold runLoop at h
    rcases hs : streamLineStep name st l tm with e | ⟨st1, b⟩
    · rw [hs] at h
      exact Except.noConfusion h
    · rw [hs] at h
      cases b with
      | true =>
        cases h
        rcases streamLineStep_ftt name st l tm st' true hs with ⟨h1, _⟩ | ⟨h1, h2⟩
        · exact Or.inl (h1 ▸ ht)
        · rw [ht] at h2
          injection h2 with h3
          exact Or.inr ⟨(l, tm), List.mem_cons_self _ _, h3.symm⟩
      | false =>
        rcases ih st1 st' h t ht with h1 | ⟨q, hq, hqt⟩
        · rcases streamLineStep_ftt name st l tm st1 false hs with ⟨h2, _⟩ | ⟨h2, h3⟩
          · exact Or.inl (h2 ▸ h1)
          · rw [h1] at h3
            cases h3
            exact Or.inr ⟨(l, t), List.mem_cons_self _ _, rfl⟩
        · exact Or.inr ⟨q, List.mem_cons_of_mem _ hq, hqt⟩

theorem computeMetrics_ordered (s f e : ℚ) (n : ℤ) (pn sn : String)
    (h1 : s ≤ f) (h2 : f ≤ e) :
    MetricsOrdered (computeMetrics s f e n pn sn) := by
  simp only [MetricsOrdered, computeMetrics]
  refine ⟨by linarith, by linarith, by linarith, by linarith, by ring⟩

/-- Claim C1. -/
theorem spec_C1 (svc : ServiceInfo) (prompt promptName : String)
    (ss : StreamSession) (fs : FallbackSession)
    (hl : ∀ p ∈ ss.lines, ss.startTime ≤ p.2 ∧ p.2 ≤ ss.endTime)
    (hse : ss.startTime ≤ ss.endTime)
    (hf1 : fs.startTime ≤ fs.responseTime) (hf2 : fs.responseTime ≤ fs.endTime) :
    (∀ m d, (make_streaming_request svc prompt promptName ss).2 = .ok (m, d) →
      MetricsOrdered m) ∧
    (∀ m d, (make_fallback_request svc prompt promptName fs).2 = .ok (m, d) →
      MetricsOrdered m) := by
  constructor
  · intro m d h
    unfold make_streaming_request at h
    rcases hg : get_api_endpoint_and_payload svc prompt true with e | ⟨ep, pl⟩
    · simp [hg] at h
    · simp only [hg] at h
      split at h
      · rcases hr : runLoop (streamLineStep svc.name) ss.lines
            (initStreamState (start_prompt_benchmark svc promptName ss.startTime))
            with e | st
        · simp [hr] at h
        · simp only [hr] at h
          simp only [finalizeStreaming, Except.ok.injEq, Prod.mk.injEq] at h
          obtain ⟨h1, h2⟩ := h
          subst h1
          rcases hftt : st.firstTokenTime with _ | t
          · simp only [hftt, Option.getD_none]
            exact computeMetrics_ordered _ _ _ _ _ _ (le_refl _) hse
          · simp only [hftt, Option.getD_some]
            rcases runLoop_ftt_mem svc.name ss.lines _ st hr t hftt with h3 | ⟨p, hp, hpt⟩
            · simp [initStreamState] at h3
            · rcases hl p hp with ⟨hb1, hb2⟩
              rw [hpt] at hb1 hb2
              exact computeMetrics_ordered _ _ _ _ _ _ hb1 hb2
      · simp at h
  · intro m d h
    unfold make_fallback_request at h
    rcases hg : get_api_endpoint_and_payload svc prompt false with e | ⟨ep, pl⟩
    · simp [hg] at h
    · simp only [hg] at h
      split at h
      · split at h
        · rcases hb : fs.body with _ | result
          · simp [hb] at h
          · simp only [hb] at h
            rcases he : extract_response_info svc result with e | ⟨text, tokens⟩
            · simp [he] at h
            · simp only [he, Except.ok.injEq, Prod.mk.injEq] at h
              obtain ⟨h1, h2⟩ := h
              subst h1
              exact computeMetrics_ordered _ _ _ _ _ _ hf1 hf2
        · simp at h
      · simp at h

/-- Witness for C1: the hypotheses hold and the conclusion is obtained for
the concrete Ollama session and fallback session above. -/
theorem spec_C1_witness :
    (∀ p ∈ sessC5.lines, sessC5.startTime ≤ p.2 ∧ p.2 ≤ sessC5.endTime) ∧
    ((∀ m d, (make_streaming_request svcOllama "p" "P1" sessC5).2 = .ok (m, d) →
        MetricsOrdered m) ∧
     (∀ m d, (make_fallback_request svcOllama "p" "P1" fsW).2 = .ok (m, d) →
        MetricsOrdered m)) :=
  ⟨by decide,
   spec_C1 svcOllama "p" "P1" sessC5 fsW (by decide) (by decide) (by decide) (by decide)⟩

/-- Claim C5. -/
theorem spec_C5 :
    ((make_streaming_request svcOllama "p" "P1" sessC5).2.toOption.map
        fun r => (r.1.total_tokens, r.2.response_text, r.2.first_token_time)) =
      some (7, "Hi there", some 1) ∧
    ((streamLineStep "Ollama"
        (initStreamState (start_prompt_benchmark svcOllama "P1" 0)) lineC5a 1).toOption.map
        fun r => (r.1.firstTokenTime, r.2)) = some (some 1, false) :=
  ⟨by decide, by decide⟩

/-- Claim C7. -/
theorem spec_C7 (name : String) (st : StreamState) (now : ℚ) :
    streamLineStep name st "\x7bnot valid json" now = .ok (st, false) := by
  unfold streamLineStep
  rw [if_neg (by decide : ¬(pyStrip "\x7bnot valid json" = ""))]
  by_cases h1 : name = "Ollama"
  · rw [if_pos h1]; rfl
  · rw [if_neg h1]
    by_cases h2 : name = "vLLM"
    · rw [if_pos h2]; rfl
    · rw [if_neg h2]
      by_cases h3 : name = "Llama.cpp"
      · rw [if_pos h3]; rfl
      · rw [if_neg h3]

/-- Claim C8. -/
theorem spec_C8 (svc : ServiceInfo) (promptName promptText : String)
    (ss : StreamSession) (fs : FallbackSession)
    (h1 : svc.name ≠ "Ollama") (h2 : svc.name ≠ "vLLM")
    (h3 : svc.name ≠ "Llama.cpp") :
    (∀ streaming, get_api_endpoint_and_payload svc promptText streaming =
      .error .valueError) ∧
    run_single_benchmark svc promptName promptText ss fs = ([], none) := by
  have hg : ∀ streaming, get_api_endpoint_and_payload svc promptText streaming =
      .error .valueError := by
    intro streaming
    unfold get_api_endpoint_and_payload
    rw [if_neg h1, if_neg h2, if_neg h3]
  refine ⟨hg, ?_⟩
  unfold run_single_benchmark make_api_request_with_live_display
    make_streaming_request make_fallback_request
  simp only [hg]
  rfl

/-- Witness for C8: a service named Test Service is none of the three
known variants, issues no request, and produces no result. -/
theorem spec_C8_witness :
    (∀ streaming, get_api_endpoint_and_payload svcUnknown "p" streaming =
      .error .valueError) ∧
    run_single_benchmark svcUnknown "P1" "p" sessC5 fsW = ([], none) :=
  spec_C8 svcUnknown "P1" "p" sessC5 fsW (by decide) (by decide) (by decide)

/-- Claim C9. -/
theorem spec_C9 :
    (∀ (s f e : ℚ) (n : ℤ) (pn sn : String),
      (e - f ≤ 0 → (computeMetrics s f e n pn sn).tokens_per_second = 0) ∧
      (e - s ≤ 0 → (computeMetrics s f e n pn sn).request_tokens_per_second = 0) ∧
      (n = 0 → (computeMetrics s f e n pn sn).tokens_per_second = 0 ∧
        (computeMetrics s f e n pn sn).request_tokens_per_second = 0)) ∧
    (∀ m : LiveMetrics,
      (m.generation_time ≤ 0 → m.tokens_per_second = 0) ∧
      (m.total_elapsed ≤ 0 → m.request_tokens_per_second = 0) ∧
      (m.total_tokens = 0 → m.tokens_per_second = 0 ∧
        m.request_tokens_per_second = 0)) ∧
    (∀ (s e : ℚ) (pn sn : String) (st : StreamState),
      st.accumulated = "" → st.totalTokens = 0 →
      (finalizeStreaming s e pn sn st).1.total_tokens = 0 ∧
      (finalizeStreaming s e pn sn st).1.tokens_per_second = 0) := by
  refine ⟨fun s f e n pn sn => ⟨?_, ?_, ?_⟩, fun m => ⟨?_, ?_, ?_⟩,
    fun s e pn sn st ha ht => ?_⟩
  · intro h
    simp only [computeMetrics]
    rw [if_neg (by linarith)]
  · intro h
    simp only [computeMetrics]
    rw [if_neg (by linarith)]
  · intro h
    subst h
    simp only [computeMetrics, Int.cast_zero, zero_div]
    constructor <;> split <;> rfl
  · intro h
    unfold LiveMetrics.tokens_per_second
    rw [if_neg]
    intro hc
    exact absurd hc.1 (by linarith)
  · intro h
    unfold LiveMetrics.request_tokens_per_second
    rw [if_neg]
    intro hc
    exact absurd hc.1 (by linarith)
  · intro h
    unfold LiveMetrics.tokens_per_second LiveMetrics.request_tokens_per_second
    rw [h]
    constructor <;> (rw [if_neg]; intro hc; exact absurd hc.2 (by linarith))
  · unfold finalizeStreaming
    rw [ha, ht]
    have hz : estimateTokens "" = 0 := by decide
    simp [computeMetrics, hz]

/-- Witness for C9: each guard instantiated at concrete inputs, from a
nonpositive generation window to a zero-content loop state. -/
theorem spec_C9_witness :
    ((computeMetrics 0 2 1 5 "P1" "Ollama").tokens_per_second = 0) ∧
    ((computeMetrics 3 3 1 5 "P1" "Ollama").request_tokens_per_second = 0) ∧
    ((computeMetrics 0 1 2 0 "P1" "Ollama").tokens_per_second = 0) ∧
    (mQuietW.tokens_per_second = 0) ∧
    (mQuietW.request_tokens_per_second = 0) ∧
    ((finalizeStreaming 0 2 "P1" "Ollama" stQuietW).1.total_tokens = 0 ∧
      (finalizeStreaming 0 2 "P1" "Ollama" stQuietW).1.tokens_per_second = 0) :=
  ⟨(spec_C9.1 0 2 1 5 "P1" "Ollama").1 (sub_nonpos.mpr (by decide)),
   (spec_C9.1 3 3 1 5 "P1" "Ollama").2.1 (sub_nonpos.mpr (by decide)),
   ((spec_C9.1 0 1 2 0 "P1" "Ollama").2.2 rfl).1,
   ((spec_C9.2.1 mQuietW).2.2 rfl).1,
   ((spec_C9.2.1 mQuietW).2.2 rfl).2,
   spec_C9.2.2 0 2 "P1" "Ollama" stQuietW rfl rfl⟩

theorem runLoop_ftt_set (name : String) (lines : List (String × ℚ)) :
    ∀ (st st' : StreamState) (t : ℚ), st.firstTokenTime = some t →
    runLoop (streamLineStep name) lines st = .ok st' →
    st'.firstTokenTime = some t := by
  induction lines with
  | nil =>
    intro st st' t hset h
    unfold runLoop at h
    cases h
    exact hset
  | cons p rest ih =>
    intro st st' t hset h
    obtain ⟨l, tm⟩ := p
    unfold runLoop at h
    rcases hs : streamLineStep name st l tm with e | ⟨st1, b⟩
    · rw [hs] at h
      exact Except.noConfusion h
    · rw [hs] at h
      have h1 := (streamLineStep_ftt_set name st l tm st1 b t hset hs).1
      cases b with
      | true => cases h; exact h1
      | false => exact ih st1 st' t h1 h

/-- Counterexample to claim C2 as stated: the mark-first-token operation
of the display overwrites the stored instant on every call, so a second
call at a later instant does change `first_token_time`. -/
theorem spec_C2_cex :
    ¬ ((update_first_token (update_first_token mC2 1) 2).first_token_time =
       (update_first_token mC2 1).first_token_time) := by
  decide

/-- Amended claim C2: the exactly-once behaviour lives in the engine, not
in `update_first_token` itself. Once the engine local `first_token_time`
is set for an in-flight job, every further loop step and every remaining
loop run leave both it and the display mark unchanged. -/
theorem spec_C2_amended (name : String) (st : StreamState) (t : ℚ)
    (hset : st.firstTokenTime = some t) :
    (∀ line now st' b, streamLineStep name st line now = .ok (st', b) →
      st'.firstTokenTime = some t ∧
      st'.display.first_token_time = st.display.first_token_time) ∧
    (∀ lines st', runLoop (streamLineStep name) lines st = .ok st' →
      st'.firstTokenTime = some t) :=
  ⟨fun line now st' b h => streamLineStep_ftt_set name st line now st' b t hset h,
   fun lines st' h => runLoop_ftt_set name lines st st' t hset h⟩

/-- Witness for the amended C2 at a concrete in-flight state and a second
delta line. -/
theorem spec_C2_amended_witness :
    stC2W.firstTokenTime = some 1 ∧ stC2res.firstTokenTime = some 1 ∧
    stC2res.display.first_token_time = stC2W.display.first_token_time :=
  ⟨rfl,
   ((spec_C2_amended "Ollama" stC2W 1 rfl).1 lineC5b 2 stC2res false rfl).1,
   ((spec_C2_amended "Ollama" stC2W 1 rfl).1 lineC5b 2 stC2res false rfl).2⟩

theorem markAppend_ftt_none (st : StreamState) (c : String) (now : ℚ)
    (hnone : st.firstTokenTime = none) :
    (appendChunk (markFirstToken st now) c now).firstTokenTime = some now := by
  rcases appendChunk_ftt (markFirstToken st now) c now with ⟨h3, _⟩
  rw [h3]
  simp [markFirstToken, hnone]

/-- Counterexample to claim C3 as stated: an Ollama line that decodes
with an empty content fragment still sets `firstTokenTime`, because the
source marks the first token before extracting the fragment. -/
theorem spec_C3_cex :
    jsonLoads lineC3 = some (.obj [("response", .str ""), ("done", .bool false)]) ∧
    ((streamLineStep "Ollama" stInit lineC3 5).toOption.map
      fun r => (r.1.firstTokenTime, r.1.accumulated, r.2)) =
      some (some 5, "", false) :=
  ⟨rfl, by decide⟩

/-- Amended claim C3: `firstTokenTime` is set on the first successfully
decoded line regardless of whether its content fragment is empty — for
the Ollama and Llama.cpp variants on any decoded object line, for the
vLLM variant on the first data-prefixed record with a nonempty choices
list — while a line that fails to decode leaves the state untouched. -/
theorem spec_C3_amended (st : StreamState) (line : String) (now : ℚ)
    (hnone : st.firstTokenTime = none) :
    (∀ kvs st' b, jsonLoads line = some (.obj kvs) →
      ollamaBody st line now = .ok (st', b) → st'.firstTokenTime = some now) ∧
    (∀ kvs st' b, jsonLoads line = some (.obj kvs) →
      llamaCppBody st line now = .ok (st', b) → st'.firstTokenTime = some now) ∧
    (∀ kvs c0 rest st' b, pyStartsWith line "data: " = true →
      pyStrip (strDrop line 6) ≠ "[DONE]" →
      jsonLoads (strDrop line 6) = some (.obj kvs) →
      (lookupKey kvs "choices").getD (.arr []) = .arr (c0 :: rest) →
      vllmBody st line now = .ok (st', b) → st'.firstTokenTime = some now) ∧
    (jsonLoads line = none → ollamaBody st line now = .ok (st, false) ∧
      llamaCppBody st line now = .ok (st, false)) := by
  refine ⟨?_, ?_, ?_, ?_⟩
  · intro kvs st' b hj h
    unfold ollamaBody at h
    simp only [hj] at h
    rcases ha : ((lookupKey kvs "response").getD (Json.str "")).asStr with e | chunk
    · simp [ha] at h
    · simp only [ha] at h
      split at h
      · rcases he : (appendChunk (markFirstToken st now) chunk now).estimatedTokens with _ | est
        · simp [he] at h
        · simp only [he] at h
          rcases hev : lookupKey kvs "eval_count" with _ | v
          · simp only [hev, Except.ok.injEq, Prod.mk.injEq] at h
            obtain ⟨h1, h2⟩ := h
            subst h1
            exact markAppend_ftt_none st chunk now hnone
          · simp only [hev] at h
            rcases hv : v.asInt with e | n
            · simp [hv, Except.map] at h
            · simp only [hv, Except.map, Except.ok.injEq, Prod.mk.injEq] at h
              obtain ⟨h1, h2⟩ := h
              subst h1
              exact markAppend_ftt_none st chunk now hnone
      · simp only [Except.ok.injEq, Prod.mk.injEq] at h
        obtain ⟨h1, h2⟩ := h
        subst h1
        exact markAppend_ftt_none st chunk now hnone
  · intro kvs st' b hj h
    unfold llamaCppBody at h
    simp only [hj] at h
    rcases ha : ((lookupKey kvs "content").getD (Json.str "")).asStr with e | chunk
    · simp [ha] at h
    · simp only [ha] at h
      split at h
      · rcases he : (appendChunk (markFirstToken st now) chunk now).estimatedTokens with _ | est
        · simp [he] at h
        · simp only [he] at h
          rcases hev : lookupKey kvs "tokens_predicted" with _ | v
          · simp only [hev, Except.ok.injEq, Prod.mk.injEq] at h
            obtain ⟨h1, h2⟩ := h
            subst h1
            exact markAppend_ftt_none st chunk now hnone
          · simp only [hev] at h
            rcases hv : v.asInt with e | n
            · simp [hv, Except.map] at h
            · simp only [hv, Except.map, Except.ok.injEq, Prod.mk.injEq] at h
              obtain ⟨h1, h2⟩ := h
              subst h1
              exact markAppend_ftt_none st chunk now hnone
      · simp only [Except.ok.injEq, Prod.mk.injEq] at h
        obtain ⟨h1, h2⟩ := h
        subst h1
        exact markAppend_ftt_none st chunk now hnone
  · intro kvs c0 rest st' b hpre hdone hj hch h
    unfold vllmBody at h
    rw [if_pos hpre, if_neg hdone] at h
    simp only [hj, hch] at h
    cases c0 with
    | obj ckvs =>
      rcases ha : ((lookupKey ckvs "text").getD (Json.str "")).asStr with e | chunk
      · simp [ha] at h
      · simp only [ha, Except.ok.injEq, Prod.mk.injEq] at h
        obtain ⟨h1, h2⟩ := h
        subst h1
        exact markAppend_ftt_none st chunk now hnone
    | null => simp at h
    | bool x => simp at h
    | num x => simp at h
    | str x => simp at h
    | arr x => simp at h
  · intro hj
    constructor
    · unfold ollamaBody
      simp only [hj]
    · unfold llamaCppBody
      simp only [hj]

/-- Witness for the amended C3: the empty-fragment line above sets the
mark at its arrival instant from a fresh state. -/
theorem spec_C3_amended_witness :
    stC3res.firstTokenTime = some 5 :=
  (spec_C3_amended stInit lineC3 5 rfl).1
    [("response", .str ""), ("done", .bool false)] stC3res false rfl rfl

theorem markFirstToken_inv (st : StreamState) (now : ℚ) :
    (markFirstToken st now).display.response_text = st.display.response_text ∧
    (markFirstToken st now).display.total_tokens = st.display.total_tokens ∧
    (markFirstToken st now).accumulated = st.accumulated := by
  unfold markFirstToken update_first_token
  cases st.firstTokenTime <;> exact ⟨rfl, rfl, rfl⟩

theorem appendChunk_inv (st : StreamState) (c : String) (now : ℚ)
    (hres : st.display.response_text = st.accumulated)
    (htok : st.display.total_tokens = estimateTokens st.accumulated) :
    (appendChunk st c now).display.response_text = (appendChunk st c now).accumulated ∧
    (appendChunk st c now).display.total_tokens =
      estimateTokens (appendChunk st c now).accumulated := by
  unfold appendChunk update_response
  by_cases hc : c = ""
  · rw [if_pos hc]
    subst hc
    simp only [String.append_empty]
    exact ⟨hres, htok⟩
  · rw [if_neg hc]
    exact ⟨by simp only [hres], rfl⟩

/-- The display-token invariant propagated by one loop step: the display
text mirrors the accumulated text and the display token count is the
truncated estimate over it. -/
theorem streamLineStep_inv (name : String) (st : StreamState) (line : String)
    (now : ℚ) (st' : StreamState) (b : Bool)
    (hres : st.display.response_text = st.accumulated)
    (htok : st.display.total_tokens = estimateTokens st.accumulated)
    (h : streamLineStep name st line now = .ok (st', b)) :
    st'.display.response_text = st'.accumulated ∧
    st'.display.total_tokens = estimateTokens st'.accumulated := by
  have hmark : ∀ chunk, (appendChunk (markFirstToken st now) chunk now).display.response_text =
        (appendChunk (markFirstToken st now) chunk now).accumulated ∧
      (appendChunk (markFirstToken st now) chunk now).display.total_tokens =
        estimateTokens (appendChunk (markFirstToken st now) chunk now).accumulated := by
    intro chunk
    obtain ⟨m1, m2, m3⟩ := markFirstToken_inv st now
    exact appendChunk_inv (markFirstToken st now) chunk now
      (by rw [m1, m3, hres]) (by rw [m2, m3, htok])
  unfold streamLineStep at h
  split at h
  · cases h; exact ⟨hres, htok⟩
  · split at h
    · unfold ollamaBody at h
      rcases hj : jsonLoads line with _ | j
      · simp only [hj] at h; cases h; exact ⟨hres, htok⟩
      · simp only [hj] at h
        cases j with
        | obj kvs =>
          rcases ha : ((lookupKey kvs "response").getD (Json.str "")).asStr with e | chunk
          · simp [ha] at h
          · simp only [ha] at h
            split at h
            · rcases he : (appendChunk (markFirstToken st now) chunk now).estimatedTokens with _ | est
              · simp [he] at h
              · simp only [he] at h
                rcases hev : lookupKey kvs "eval_count" with _ | v
                · simp only [hev, Except.ok.injEq, Prod.mk.injEq] at h
                  obtain ⟨h1, h2⟩ := h
                  subst h1
                  exact hmark chunk
                · simp only [hev] at h
                  rcases hv : v.asInt with e | n
                  · simp [hv, Except.map] at h
                  · simp only [hv, Except.map, Except.ok.injEq, Prod.mk.injEq] at h
                    obtain ⟨h1, h2⟩ := h
                    subst h1
                    exact hmark chunk
            · simp only [Except.ok.injEq, Prod.mk.injEq] at h
              obtain ⟨h1, h2⟩ := h
              subst h1
              exact hmark chunk
        | null => simp at h
        | bool x => simp at h
        | num x => simp at h
        | str x => simp at h
        | arr x => simp at h
    · split at h
      · unfold vllmBody at h
        split at h
        · split at h
          · cases h; exact ⟨hres, htok⟩
          · rcases hj : jsonLoads (strDrop line 6) with _ | j
            · simp only [hj] at h; cases h; exact ⟨hres, htok⟩
            · simp only [hj] at h
              cases j with
              | obj kvs =>
                rcases hch : (lookupKey kvs "choices").getD (Json.arr []) with _ | x | x | x | xs | okvs
                · simp only [hch] at h
                  split at h
                  · simp at h
                  · cases h; exact ⟨hres, htok⟩
                · simp only [hch] at h
                  split at h
                  · simp at h
                  · cases h; exact ⟨hres, htok⟩
                · simp only [hch] at h
                  split at h
                  · simp at h
                  · cases h; exact ⟨hres, htok⟩
                · simp only [hch] at h
                  split at h
                  · simp at h
                  · cases h; exact ⟨hres, htok⟩
                · cases xs with
                  | nil => simp only [hch] at h; cases h; exact ⟨hres, htok⟩
                  | cons c0 crest =>
                    simp only [hch] at h
                    cases c0 with
                    | obj ckvs =>
                      rcases ha : ((lookupKey ckvs "text").getD (Json.str "")).asStr with e | chunk
                      · simp [ha] at h
                      · simp only [ha, Except.ok.injEq, Prod.mk.injEq] at h
                        obtain ⟨h1, h2⟩ := h
                        subst h1
                        exact hmark chunk
                    | null => simp at h
                    | bool x => simp at h
                    | num x => simp at h
                    | str x => simp at h
                    | arr x => simp at h
                · simp only [hch] at h
                  split at h
                  · simp at h
                  · cases h; exact ⟨hres, htok⟩
              | null => simp at h
              | bool x => simp at h
              | num x => simp at h
              | str x => simp at h
              | arr x => simp at h
        · cases h; exact ⟨hres, htok⟩
      · split at h
        · unfold llamaCppBody at h
          rcases hj : jsonLoads line with _ | j
          · simp only [hj] at h; cases h; exact ⟨hres, htok⟩
          · simp only [hj] at h
            cases j with
            | obj kvs =>
              rcases ha : ((lookupKey kvs "content").getD (Json.str "")).asStr with e | chunk
              · simp [ha] at h
              · simp only [ha] at h
                split at h
                · rcases he : (appendChunk (markFirstToken st now) chunk now).estimatedTokens with _ | est
                  · simp [he] at h
                  · simp only [he] at h
                    rcases hev : lookupKey kvs "tokens_predicted" with _ | v
                    · simp only [hev, Except.ok.injEq, Prod.mk.injEq] at h
                      obtain ⟨h1, h2⟩ := h
                      subst h1
                      exact hmark chunk
                    · simp only [hev] at h
                      rcases hv : v.asInt with e | n
                      · simp [hv, Except.map] at h
                      · simp only [hv, Except.map, Except.ok.injEq, Prod.mk.injEq] at h
                        obtain ⟨h1, h2⟩ := h
                        subst h1
                        exact hmark chunk
                · simp only [Except.ok.injEq, Prod.mk.injEq] at h
                  obtain ⟨h1, h2⟩ := h
                  subst h1
                  exact hmark chunk
            | null => simp at h
            | bool x => simp at h
            | num x => simp at h
            | str x => simp at h
            | arr x => simp at h
        · cases h; exact ⟨hres, htok⟩

/-- Counterexample to claim C4 as stated: after appending the delta
`a b c` the running display token count is `int(3 * 1.3) = 3`, while the
claimed rounding gives 4. -/
theorem spec_C4_cex :
    ((streamLineStep "Ollama" stInit lineC4 1).toOption.map
      fun r => (r.1.display.total_tokens, r.1.display.response_text)) =
      some (3, "a b c") ∧
    specRoundTokens (wordCount "a b c") = 4 ∧ (3 : ℤ) ≠ 4 := by
  refine ⟨by decide, ?_, by decide⟩
  show round ((3 : ℚ) * (13 / 10)) = 4
  norm_num [round_eq]

/-- Amended claim C4: while no authoritative count has been supplied,
after each loop step the running display token count equals
`int(wordCount(responseText) * 1.3)` — the truncated estimate
`estimateTokens`, not the rounded one — and the display text mirrors the
accumulated response. -/
theorem spec_C4_amended (name : String) (st : StreamState) (line : String)
    (now : ℚ) (st' : StreamState) (b : Bool)
    (hres : st.display.response_text = st.accumulated)
    (htok : st.display.total_tokens = estimateTokens st.accumulated)
    (h : streamLineStep name st line now = .ok (st', b)) :
    st'.display.response_text = st'.accumulated ∧
    st'.display.total_tokens = estimateTokens st'.accumulated :=
  streamLineStep_inv name st line now st' b hres htok h

/-- Witness for the amended C4 at the fresh state and the three-word
delta line. -/
theorem spec_C4_amended_witness :
    stC4res.display.response_text = stC4res.accumulated ∧
    stC4res.display.total_tokens = estimateTokens stC4res.accumulated :=
  spec_C4_amended "Ollama" stInit lineC4 1 stC4res false rfl (by decide) rfl

/-- Claim C6. -/
theorem spec_C6 (svc : ServiceInfo) (prompt promptName : String)
    (ss : StreamSession) (fs : FallbackSession) (e : PyError)
    (hfail : (make_streaming_request svc prompt promptName ss).2 = .error e)
    (hknown : svc.name = "Ollama" ∨ svc.name = "vLLM" ∨ svc.name = "Llama.cpp") :
    (make_api_request_with_live_display svc prompt promptName ss fs).2 =
      (make_fallback_request svc prompt promptName fs).2 ∧
    (make_api_request_with_live_display svc prompt promptName ss fs).1 =
      (make_streaming_request svc prompt promptName ss).1 ++
        (make_fallback_request svc prompt promptName fs).1 ∧
    (∃ ep pl, get_api_endpoint_and_payload svc prompt false = .ok (ep, pl) ∧
      (make_fallback_request svc prompt promptName fs).1 =
        [{ endpoint := ep, payload := pl, headers := svc.headers,
           stream := false }] ∧
      ∃ kvs, pl = .obj kvs ∧ lookupKey kvs "prompt" = some (.str prompt) ∧
        lookupKey kvs "stream" = some (.bool false) ∧
        (svc.name ≠ "Llama.cpp" → lookupKey kvs "model" = some (.str svc.model))) ∧
    (∀ m d, (make_fallback_request svc prompt promptName fs).2 = .ok (m, d) →
      ∃ result text tokens, fs.body = some result ∧
        extract_response_info svc result = .ok (text, tokens) ∧
        m = computeMetrics fs.startTime fs.responseTime fs.endTime tokens
              promptName svc.name ∧
        d = complete_prompt_benchmark
              (update_first_token
                (start_prompt_benchmark svc promptName fs.startTime)
                fs.responseTime)
              text tokens fs.endTime) := by
  refine ⟨?_, ?_, ?_, ?_⟩
  · unfold make_api_request_with_live_display
    rcases hs : make_streaming_request svc prompt promptName ss with ⟨reqs, res⟩
    rw [hs] at hfail
    simp only at hfail
    rw [hfail]
  · unfold make_api_request_with_live_display
    rcases hs : make_streaming_request svc prompt promptName ss with ⟨reqs, res⟩
    rw [hs] at hfail
    simp only at hfail
    rw [hfail]
  · have hreq : ∀ ep pl, get_api_endpoint_and_payload svc prompt false = .ok (ep, pl) →
        (make_fallback_request svc prompt promptName fs).1 =
          [{ endpoint := ep, payload := pl, headers := svc.headers,
             stream := false }] := by
      intro ep pl hg
      unfold make_fallback_request
      simp only [hg]
      split
      · split
        · rcases hb : fs.body with _ | result
          · simp only [hb]
          · simp only [hb]
            rcases he : extract_response_info svc result with er | ⟨text, tokens⟩
            · simp only [he]
            · simp only [he]
        · rfl
      · rfl
    rcases hknown with hn | hn | hn
    · have hg : get_api_endpoint_and_payload svc prompt false =
          .ok (svc.host ++ "/api/generate",
            .obj [("model", .str svc.model), ("prompt", .str prompt),
                  ("stream", .bool false)]) := by
        unfold get_api_endpoint_and_payload
        rw [hn]
        simp
      exact ⟨_, _, hg, hreq _ _ hg, _, rfl, rfl, rfl, fun _ => rfl⟩
    · have hg : get_api_endpoint_and_payload svc prompt false =
          .ok (svc.host ++ "/v1/completions",
            .obj [("model", .str svc.model), ("prompt", .str prompt),
                  ("max_tokens", .num 500), ("stream", .bool false)]) := by
        unfold get_api_endpoint_and_payload
        rw [hn]
        simp
      exact ⟨_, _, hg, hreq _ _ hg, _, rfl, rfl, rfl, fun _ => rfl⟩
    · have hg : get_api_endpoint_and_payload svc prompt false =
          .ok (svc.host ++ "/completion",
            .obj [("prompt", .str prompt), ("n_predict", .num 500),
                  ("stream", .bool false)]) := by
        unfold get_api_endpoint_and_payload
        rw [hn]
        simp
      exact ⟨_, _, hg, hreq _ _ hg, _, rfl, rfl, rfl, fun hne => absurd hn hne⟩
  · intro m d h
    unfold make_fallback_request at h
    rcases hg : get_api_endpoint_and_payload svc prompt false with er | ⟨ep, pl⟩
    · simp [hg] at h
    · simp only [hg] at h
      split at h
      · split at h
        · rcases hb : fs.body with _ | result
          · simp [hb] at h
          · simp only [hb] at h
            rcases he : extract_response_info svc result with er | ⟨text, tokens⟩
            · simp [he] at h
            · simp only [he, Except.ok.injEq, Prod.mk.injEq] at h
              obtain ⟨h1, h2⟩ := h
              exact ⟨result, text, tokens, rfl, he, h1.symm, h2.symm⟩
        · simp at h
      · simp at h

/-- Witness for C6: a connection failure on the streaming path makes the
overall result the fallback result. -/
theorem spec_C6_witness :
    (make_streaming_request svcOllama "p" "P1" sessFail).2 =
      .error .requestException ∧
    (make_api_request_with_live_display svcOllama "p" "P1" sessFail fsW).2 =
      (make_fallback_request svcOllama "p" "P1" fsW).2 :=
  ⟨rfl,
   (spec_C6 svcOllama "p" "P1" sessFail fsW .requestException rfl (Or.inl rfl)).1⟩

/-- Counterexample to claim C10 as stated: the Variant A (Ollama) request
body is exactly model, prompt, stream — it carries no generation-length
cap field at all, so no request-wide 500-unit cap exists. -/
theorem spec_C10_cex :
    get_api_endpoint_and_payload svcOllama "p" true =
      .ok ("http://h/api/generate",
        .obj [("model", .str "m"), ("prompt", .str "p"),
              ("stream", .bool true)]) ∧
    ((get_api_endpoint_and_payload svcOllama "p" true).toOption.map
      fun r =>
        match r.2 with
        | .obj kvs =>
          (lookupKey kvs "max_tokens", lookupKey kvs "n_predict",
           lookupKey kvs "num_predict")
        | _ => (none, none, none)) = some (none, none, none) :=
  ⟨rfl, rfl⟩

/-- Amended claim C10: each variant uses its fixed endpoint suffix and
exact body fields — the 500-unit generation cap appears only in the vLLM
`max_tokens` and Llama.cpp `n_predict` fields, while the Ollama body has
no cap — and every issued request, streaming or fallback, carries the
caller-supplied auth headers and the payload built for this prompt. -/
theorem spec_C10_amended (svc : ServiceInfo) (prompt promptName : String)
    (streaming : Bool) :
    (svc.name = "Ollama" → get_api_endpoint_and_payload svc prompt streaming =
      .ok (svc.host ++ "/api/generate",
        .obj [("model", .str svc.model), ("prompt", .str prompt),
              ("stream", .bool streaming)])) ∧
    (svc.name = "vLLM" → get_api_endpoint_and_payload svc prompt streaming =
      .ok (svc.host ++ "/v1/completions",
        .obj [("model", .str svc.model), ("prompt", .str prompt),
              ("max_tokens", .num 500), ("stream", .bool streaming)])) ∧
    (svc.name = "Llama.cpp" → get_api_endpoint_and_payload svc prompt streaming =
      .ok (svc.host ++ "/completion",
        .obj [("prompt", .str prompt), ("n_predict", .num 500),
              ("stream", .bool streaming)])) ∧
    (∀ ss r, r ∈ (make_streaming_request svc prompt promptName ss).1 →
      r.headers = svc.headers ∧ r.stream = true ∧
      get_api_endpoint_and_payload svc prompt true = .ok (r.endpoint, r.payload)) ∧
    (∀ fs r, r ∈ (make_fallback_request svc prompt promptName fs).1 →
      r.headers = svc.headers ∧ r.stream = false ∧
      get_api_endpoint_and_payload svc prompt false = .ok (r.endpoint, r.payload)) := by
  refine ⟨?_, ?_, ?_, ?_, ?_⟩
  · intro hn
    unfold get_api_endpoint_and_payload
    rw [hn]
    simp
  · intro hn
    unfold get_api_endpoint_and_payload
    rw [hn]
    simp
  · intro hn
    unfold get_api_endpoint_and_payload
    rw [hn]
    simp
  · intro ss r hr
    unfold make_streaming_request at hr
    rcases hg : get_api_endpoint_and_payload svc prompt true with e | ⟨ep, pl⟩
    · simp [hg] at hr
    · simp only [hg] at hr
      have hsingle : r ∈ [Request.mk ep pl svc.headers true] := by
        split at hr
        · rcases hl : runLoop (streamLineStep svc.name) ss.lines
              (initStreamState (start_prompt_benchmark svc promptName ss.startTime))
              with e | stf
          · simp only [hl] at hr
            exact hr
          · simp only [hl] at hr
            exact hr
        · exact hr
      rcases List.mem_singleton.mp hsingle with h
      rw [h]
      exact ⟨rfl, rfl, rfl⟩
  · intro fs r hr
    unfold make_fallback_request at hr
    rcases hg : get_api_endpoint_and_payload svc prompt false with e | ⟨ep, pl⟩
    · simp [hg] at hr
    · simp only [hg] at hr
      have hsingle : r ∈ [Request.mk ep pl svc.headers false] := by
        split at hr
        · split at hr
          · rcases hb : fs.body with _ | result
            · simp only [hb] at hr
              exact hr
            · simp only [hb] at hr
              rcases he : extract_response_info svc result with er | ⟨text, tokens⟩
              · simp only [he] at hr
                exact hr
              · simp only [he] at hr
                exact hr
          · exact hr
        · exact hr
      rcases List.mem_singleton.mp hsingle with h
      rw [h]
      exact ⟨rfl, rfl, rfl⟩

/-- Witness for the amended C10: the Ollama clause at the concrete
descriptor, and the issued streaming request of the concrete session
carries the default headers and the built payload. -/
theorem spec_C10_amended_witness :
    (get_api_endpoint_and_payload svcOllama "p" true =
      .ok (svcOllama.host ++ "/api/generate",
        .obj [("model", .str svcOllama.model), ("prompt", .str "p"),
              ("stream", .bool true)])) ∧
    (reqOllamaW.headers = svcOllama.headers ∧ reqOllamaW.stream = true ∧
      get_api_endpoint_and_payload svcOllama "p" true =
        .ok (reqOllamaW.endpoint, reqOllamaW.payload)) :=
  ⟨(spec_C10_amended svcOllama "p" "P1" true).1 rfl,
   (spec_C10_amended svcOllama "p" "P1" true).2.2.2.1 sessC5 reqOllamaW
     (List.Mem.head _)⟩
